import Mathlib

/-
  A shallow embedding of the triple-emission engine in
  `dipper/sources/ClinVar.py` (the ClinVar → RDF converter), together with
  proofs about the behaviour its specification describes.

  Modelling conventions:
  * Python strings are Lean `String` (a structure holding a `List Char`);
    character-level operations are written against `List Char`.
  * Python dicts used as lookup tables (CURIEMAP, GLOBALTT, LOCALTT,
    the gene→condition map) are association lists `List (String × String)`
    taken as explicit parameters; `dict[k]` (which raises `KeyError` on a
    missing key) is `dix`, returning `Except`.
  * Fallible code returns `Except String α`; an uncaught Python exception is
    `Except.error msg`.
  * `str.isdigit`/`str.isnumeric`/`str.lower`/`str.isalpha` are modelled on
    the ASCII repertoire (plus a small documented sample of Unicode numeric
    characters), which agrees with Python on every string this development
    evaluates.
-/

/-- The double-quote character (written by code point to keep source lines
free of bare quote characters). -/
def dq : Char := Char.ofNat 34

/-- The apostrophe character. -/
def apos : Char := Char.ofNat 39

/-- Python `str.split(sep)` for a single-character separator: splits at every
occurrence, keeping empty segments (`''.split(':') == ['']`). -/
def pySplit (sep : Char) : List Char → List (List Char)
  | [] => [[]]
  | c :: rest =>
    match pySplit sep rest with
    | [] => [[]]
    | h :: t => if c = sep then [] :: h :: t else (c :: h) :: t

/-- `pySplit` lifted to `String`. -/
def pySplitS (sep : Char) (s : String) : List String :=
  (pySplit sep s.data).map (fun l => ⟨l⟩)

/-- Python whitespace for `str.strip()` (space, tab, LF, CR, VT, FF). -/
def isPyWs (c : Char) : Bool :=
  c = ' ' || c = '\t' || c = '\n' || c = '\r' || c = Char.ofNat 11 || c = Char.ofNat 12

/-- Strip characters satisfying `p` from both ends of a list. -/
def stripBoth (p : Char → Bool) (l : List Char) : List Char :=
  ((l.dropWhile p).reverse.dropWhile p).reverse

/-- Python `str.strip()` (no argument: strips whitespace from both ends). -/
def pyStripWs (s : String) : String := ⟨stripBoth isPyWs s.data⟩

/-- Python `str.strip('"')` on the character list. -/
def stripQuotes (l : List Char) : List Char := stripBoth (fun c => c = dq) l

/-- Python `str.lower()` (ASCII). -/
def pyLowerS (s : String) : String := ⟨s.data.map Char.toLower⟩

/-- Python `str.isdigit()` restricted to ASCII digits. -/
def pyIsDigit (s : String) : Bool := !s.data.isEmpty && s.data.all Char.isDigit

/-- A sample of non-ASCII characters for which Python's `str.isnumeric` is
true while `str.isdigit` is false (vulgar fractions and superscripts);
stands in for the full Unicode `Numeric_Type` table. -/
def numericExtra : List Char :=
  [Char.ofNat 0xBD, Char.ofNat 0xBC, Char.ofNat 0xBE,
   Char.ofNat 0xB9, Char.ofNat 0xB2, Char.ofNat 0xB3]

/-- Python `str.isnumeric()` restricted to ASCII digits plus `numericExtra`.
On ASCII strings this agrees exactly with Python (`'.'` is not numeric). -/
def pyIsNumeric (s : String) : Bool :=
  !s.data.isEmpty && s.data.all (fun c => c.isDigit || numericExtra.contains c)

/-- `(l.map f).join`: the effect of a Python single-character
`str.replace(src, dst)` is `concatMapL` of a per-character function. -/
def concatMapL (f : Char → List Char) (l : List Char) : List Char := (l.map f).flatten

/-- Association-list lookup, modelling `tbl.get(k)` / `k in tbl`. -/
def ttLookup (tt : List (String × String)) (k : String) : Option String :=
  (tt.find? (fun p => p.1 = k)).map Prod.snd

/-- Python `tbl[k]`: raises `KeyError` when the key is missing. -/
def dix (tt : List (String × String)) (k : String) : Except String String :=
  match ttLookup tt k with
  | some v => Except.ok v
  | none => Except.error ("KeyError: " ++ k)

/-- A word character of the CURIE regular expression: `[A-Za-z0-9_]`. -/
def wchar (c : Char) : Bool := c.isAlpha || c.isDigit || c = '_'

/-- A character allowed after the first tail character: `[A-Za-z0-9_.]`. -/
def tailChar (c : Char) : Bool := wchar c || c = '.'

/-- Whether a list matches `[A-Za-z0-9_][A-Za-z0-9_.]*[A-Za-z0-9_]*`
(equivalently: nonempty, word-char first, tail chars thereafter). -/
def tailOK : List Char → Bool
  | [] => false
  | c :: rest => wchar c && rest.all tailChar

/-- Drop one final newline, modelling Python's `$` anchor which also matches
just before a single newline at the end of the string. -/
def dropFinalNl (l : List Char) : List Char :=
  match l.getLast? with
  | some c => if c = '\n' then l.dropLast else l
  | none => l

/-- The part after the chosen colon matches the regex tail up to `$`. -/
def tailEnd (l : List Char) : Bool := tailOK (dropFinalNl l)

/-- `re.match` of `CURIERE = r'^.*:[A-Za-z0-9_][A-Za-z0-9_.]*[A-Za-z0-9_]*$'`:
there is a colon such that everything before it contains no newline (`.`)
and everything after it matches the tail (with the `$`-newline quirk). -/
def matchCURIERE : List Char → Bool
  | [] => false
  | c :: rest =>
    if c = ':' then tailEnd rest || matchCURIERE rest
    else decide (c ≠ '\n') && matchCURIERE rest

/-- `thing.split(':')[0]`: the segment before the first colon. -/
def firstColonSeg (s : String) : String := ⟨s.data.takeWhile (fun c => c ≠ ':')⟩


/-
  Statement Codec (`make_spo`, `is_literal`, `make_biolink_category_triple`,
  `expand_curie`), translated from ClinVar.py lines 88-221.
-/

/-- `obj.replace('\\', '\\\\')`: double every backslash. -/
def replBackslash (l : List Char) : List Char :=
  concatMapL (fun c => if c = '\\' then ['\\', '\\'] else [c]) l

/-- `obj.replace('"', "'")`: the source replaces a double quote by an
apostrophe (it does not escape it). -/
def replQuote (l : List Char) : List Char :=
  concatMapL (fun c => if c = dq then [apos] else [c]) l

/-- `obj.replace('\n', '\\n')`. -/
def replLF (l : List Char) : List Char :=
  concatMapL (fun c => if c = '\n' then ['\\', 'n'] else [c]) l

/-- `obj.replace('\r', '\\r')`. -/
def replCR (l : List Char) : List Char :=
  concatMapL (fun c => if c = '\r' then ['\\', 'r'] else [c]) l

/-- `obj.replace('\t', '\\t')`. -/
def replTab (l : List Char) : List Char :=
  concatMapL (fun c => if c = '\t' then ['\\', 't'] else [c]) l

/-- The plain-string-literal transformation of `make_spo` (lines 148-149):
`obj.strip('"').replace('\\','\\\\').replace('"', '\'')
    .replace('\n','\\n').replace('\r','\\r').replace('\t','\\t')`. -/
def escape_literal (s : String) : String :=
  ⟨replTab (replCR (replLF (replQuote (replBackslash (stripQuotes s.data)))))⟩

/-- The analogous transformation in `expand_curie` (lines 218-219), which
does not touch tabs. -/
def escape_curie_literal (s : String) : String :=
  ⟨replCR (replLF (replQuote (replBackslash (stripQuotes s.data))))⟩

/-- Modelled from the spec: unescaping an emitted string literal
(`\\`→`\`, `\n`→LF, `\r`→CR, `\t`→TAB), the inverse reading of the escape
table of §4.1/§8.2.  This is the spec-side notion used to state the
round-trip property; it is not code of the repository. -/
def unEsc (d : Char) : Char :=
  if d = 'n' then '\n' else if d = 'r' then '\r' else if d = 't' then '\t' else d

/-- Modelled from the spec: unescape a whole character list (see `unEsc`). -/
def unescape_chars : List Char → List Char
  | [] => []
  | c :: rest =>
    if c = '\\' then
      match rest with
      | [] => [c]
      | d :: rest2 => unEsc d :: unescape_chars rest2
    else c :: unescape_chars rest

/-- Modelled from the spec: `unescape_chars` on strings. -/
def unescape_literal (s : String) : String := ⟨unescape_chars s.data⟩

/-- The object-typing decision of `make_spo` when the object is not a
registered-prefix CURIE (lines 140-150): all-digits → integer literal,
all-numeric → double literal, otherwise plain escaped string literal. -/
def obj_token_literal (obj : String) : String :=
  if pyIsDigit obj then
    ⟨[dq]⟩ ++ obj ++ ⟨[dq]⟩ ++ "^^<http://www.w3.org/2001/XMLSchema#integer>"
  else if pyIsNumeric obj then
    ⟨[dq]⟩ ++ obj ++ ⟨[dq]⟩ ++ "^^<http://www.w3.org/2001/XMLSchema#double>"
  else
    ⟨[dq]⟩ ++ escape_literal obj ++ ⟨[dq]⟩

/-- The full object-token computation of `make_spo` (lines 128-150): if the
object matches `CURIERE`, splits at a single colon and has a registered
prefix, expand it (wrapping in angle brackets unless it is a blank node
whose namespace is mapped to `'_:b'`); otherwise fall through to the
literal typing. -/
def obj_token (cm : List (String × String)) (obj : String) : String :=
  if matchCURIERE obj.data then
    match pySplitS ':' obj with
    | [objcuri, objid] =>
      match ttLookup cm objcuri with
      | some ns =>
        if objcuri = "_" && ns = "_:b" then ns ++ pyStripWs objid
        else "<" ++ ns ++ pyStripWs objid ++ ">"
      | none => obj_token_literal obj
    | _ => obj_token_literal obj
  else obj_token_literal obj

/-- `is_literal` (lines 173-185): a token is non-literal when it matches
`CURIERE` or its first colon segment lowercases to a network scheme. -/
def is_literal (thing : String) : Bool :=
  !(matchCURIERE thing.data
    || (["http", "https", "ftp"].contains (pyLowerS (firstColonSeg thing))))

/-- Modelled from the external `BiolinkVocabulary.terms` mapping (imported
by the source, not part of this repository): a term name maps to its
`biolink:` CURIE. -/
def blvTerm (k : String) : String := "biolink:" ++ k

/-- `expand_curie` (lines 201-221): expand a CURIE with a registered prefix
to a wrapped absolute reference, else quote it (numeric strings verbatim,
other strings through the four-stage escape without tab handling). -/
def expand_curie (cm : List (String × String)) (c : String) : String :=
  if matchCURIERE c.data then
    match pySplitS ':' c with
    | [cpre, cid] =>
      match ttLookup cm cpre with
      | some ns =>
        if cpre = "_" && ns = "_:b" then ns ++ pyStripWs cid
        else "<" ++ ns ++ pyStripWs cid ++ ">"
      | none =>
        if pyIsNumeric c then ⟨[dq]⟩ ++ c ++ ⟨[dq]⟩
        else ⟨[dq]⟩ ++ escape_curie_literal c ++ ⟨[dq]⟩
    | _ =>
      if pyIsNumeric c then ⟨[dq]⟩ ++ c ++ ⟨[dq]⟩
      else ⟨[dq]⟩ ++ escape_curie_literal c ++ ⟨[dq]⟩
  else
    if pyIsNumeric c then ⟨[dq]⟩ ++ c ++ ⟨[dq]⟩
    else ⟨[dq]⟩ ++ escape_curie_literal c ++ ⟨[dq]⟩

/-- `make_biolink_category_triple` (lines 188-198): no output for a literal
subject; otherwise `' '.join([subj, category-predicate, category, ' .\n'])`.
The Python `try/except ValueError` never fires because `expand_curie` is
total, so the function is total here as well. -/
def make_biolink_category_triple (cm : List (String × String))
    (subj cat : String) : String :=
  if is_literal subj then ""
  else
    subj ++ " " ++ expand_curie cm (blvTerm "category") ++ " "
      ++ expand_curie cm cat ++ " " ++ " .\n"

/-- `make_spo` (lines 88-170).  Subject and predicate must split at exactly
one colon (`(a, b) = s.split(':')`, a `ValueError` otherwise) and carry
registered prefixes; the object is typed by `obj_token`; optional category
triples are appended for the *expanded* subject/object tokens. -/
def make_spo (cm : List (String × String)) (sub prd0 obj : String)
    (subject_category object_category : Option String) : Except String String :=
  let prd := if prd0 = "a" then "rdf:type" else prd0
  match pySplitS ':' sub with
  | [subcuri, subid] =>
    match pySplitS ':' prd with
    | [prdcuri, prdid] =>
      if obj = "" then
        Except.error ("AssertionError: EMPTY object for subject " ++ sub)
      else
        let objt := obj_token cm obj
        match ttLookup cm subcuri, ttLookup cm prdcuri with
        | some subns, some prdns =>
          let subjt :=
            if subcuri = "_" && subns = "_:b" then subns ++ pyStripWs subid
            else "<" ++ subns ++ pyStripWs subid ++ ">"
          let base := subjt ++ " <" ++ prdns ++ pyStripWs prdid ++ "> "
            ++ objt ++ " .\n"
          let t1 :=
            match subject_category with
            | some cat => make_biolink_category_triple cm subjt cat
            | none => ""
          let t2 :=
            match object_category with
            | some cat => make_biolink_category_triple cm objt cat
            | none => ""
          Except.ok (base ++ t1 ++ t2)
        | _, _ => Except.error "ValueError: Can not work with"
    | _ => Except.error ("ValueError: not a Predicate Curie " ++ prd)
  | _ => Except.error ("ValueError: not a Subject Curie " ++ sub)

/-- `resolve` (lines 408-434): local table first, re-resolving a local hit
through the global table; else the global table; else the label unchanged
(with only a logged warning in the source). -/
def resolve (ltt gtt : List (String × String)) (label : String) : String :=
  match ttLookup ltt label with
  | some t =>
    match ttLookup gtt t with
    | some g => g
    | none => t
  | none =>
    match ttLookup gtt label with
    | some g => g
    | none => label

/-
  Sibling Conflict Linker (`scv_link`, lines 233-276) and the deterministic
  ID generator (`digest_id`, lines 279-290, SHA-1 based).
-/

/-- The `sig` table of `scv_link`: power-of-two weights of the five
pathogenicity calls. -/
def sigTable : List (String × Nat) :=
  [("GENO:0000840", 1), ("GENO:0000841", 2), ("GENO:0000844", 4),
   ("GENO:0000843", 8), ("GENO:0000845", 16)]

/-- `sig[k]` with `KeyError` on a missing key. -/
def sigIx (k : String) : Except String Nat :=
  match (sigTable.find? (fun p => p.1 = k)).map Prod.snd with
  | some v => Except.ok v
  | none => Except.error ("KeyError: " ++ k)

/-- The `lnk` table of `scv_link`: weight difference → relation CURIE. -/
def lnkTable : List (Nat × String) :=
  [(0, "SEPIO:0000098"), (1, "SEPIO:0000099"), (2, "SEPIO:0000101"),
   (3, "SEPIO:0000101"), (4, "SEPIO:0000099"), (6, "SEPIO:0000101"),
   (7, "SEPIO:0000100"), (8, "SEPIO:0000126"), (12, "SEPIO:0000126"),
   (14, "SEPIO:0000126"), (15, "SEPIO:0000126")]

/-- `lnk[d]` with `KeyError` on a missing difference. -/
def lnkIx (d : Nat) : Except String String :=
  match (lnkTable.find? (fun p => p.1 = d)).map Prod.snd with
  | some v => Except.ok v
  | none => Except.error "KeyError: weight difference not in lnk"

/-- `lnk[abs(sig[va] - sig[vb])]`: the relation chosen for a pair of
pathogenicity calls. -/
def pair_link (va vb : String) : Except String String := do
  let wa ← sigIx va
  let wb ← sigIx vb
  lnkIx (Int.natAbs ((wa : Int) - (wb : Int)))

/-- Insert an entry into a key-sorted association list. -/
def insertByKey (p : String × String) :
    List (String × String) → List (String × String)
  | [] => [p]
  | q :: rest => if p.1 ≤ q.1 then p :: q :: rest else q :: insertByKey p rest

/-- Insertion sort by key, modelling `sorted(scv_sig.keys())`. -/
def sortByKey : List (String × String) → List (String × String)
  | [] => []
  | p :: rest => insertByKey p (sortByKey rest)

/-- One round of `scv_link`'s outer loop: after popping sibling `a` (with
call `va`), emit both directional statements against every remaining
sibling. -/
def linkOne (cm : List (String × String)) (a va : String) :
    List (String × String) → Except String (List String)
  | [] => Except.ok []
  | (b, vb) :: rest => do
    let l ← pair_link va vb
    let t1 ← make_spo cm a l b none none
    let t2 ← make_spo cm b l a none none
    let ts ← linkOne cm a va rest
    pure (t1 :: t2 :: ts)

/-- `scv_link`'s loops over the already-sorted sibling list: each sibling is
popped and linked against all remaining ones. -/
def scv_link_sorted (cm : List (String × String)) :
    List (String × String) → Except String (List String)
  | [] => Except.ok []
  | (a, va) :: rest => do
    let h ← linkOne cm a va rest
    let t ← scv_link_sorted cm rest
    pure (h ++ t)

/-- `scv_link` (lines 233-276): the sibling map (a dict, modelled as an
association list) is processed in sorted key order; the statements are
appended to the per-record triple buffer, which is returned here. -/
def scv_link (cm : List (String × String)) (scv_sig : List (String × String)) :
    Except String (List String) :=
  scv_link_sorted cm (sortByKey scv_sig)

/-- UTF-8 encoding of one character, as byte values. -/
def encodeCharUtf8 (c : Char) : List Nat :=
  let n := c.toNat
  if n < 128 then [n]
  else if n < 2048 then [192 + n / 64, 128 + n % 64]
  else if n < 65536 then [224 + n / 4096, 128 + (n / 64) % 64, 128 + n % 64]
  else [240 + n / 262144, 128 + (n / 4096) % 64, 128 + (n / 64) % 64, 128 + n % 64]

/-- `s.encode('utf-8')` as a list of byte values. -/
def utf8Bytes (s : String) : List Nat := (s.data.map encodeCharUtf8).flatten

/-- 32-bit left rotation on `Nat` (values kept below `2^32`). -/
def rotl32 (k n : Nat) : Nat :=
  ((n * 2 ^ k) % 2 ^ 32) ||| (n / 2 ^ (32 - k))

/-- Bitwise complement within 32 bits. -/
def bnot32 (n : Nat) : Nat := 4294967295 ^^^ n

/-- Big-endian 8-byte encoding of a natural number. -/
def be64 (n : Nat) : List Nat :=
  [(n / 2 ^ 56) % 256, (n / 2 ^ 48) % 256, (n / 2 ^ 40) % 256, (n / 2 ^ 32) % 256,
   (n / 2 ^ 24) % 256, (n / 2 ^ 16) % 256, (n / 2 ^ 8) % 256, n % 256]

/-- SHA-1 message padding: `0x80`, zeros to 56 mod 64, 64-bit bit length. -/
def sha1pad (msg : List Nat) : List Nat :=
  let len := msg.length
  msg ++ [128] ++ List.replicate ((120 - (len + 1) % 64) % 64) 0 ++ be64 (len * 8)

/-- Split a byte list into chunks of 64 (structural recursion on a fuel
bound so that the definition reduces inside the kernel). -/
def chunks64Go : Nat → List Nat → List (List Nat)
  | 0, _ => []
  | _ + 1, [] => []
  | n + 1, c :: rest => (c :: rest).take 64 :: chunks64Go n ((c :: rest).drop 64)

/-- Split a byte list into chunks of 64. -/
def chunks64 (l : List Nat) : List (List Nat) := chunks64Go l.length l

/-- Big-endian 4-byte word from the bytes at positions `4i..4i+3`. -/
def word32At (block : List Nat) (i : Nat) : Nat :=
  block.getD (4 * i) 0 * 16777216 + block.getD (4 * i + 1) 0 * 65536
    + block.getD (4 * i + 2) 0 * 256 + block.getD (4 * i + 3) 0

/-- The 80 words of the SHA-1 message schedule. -/
def sha1schedule (block : List Nat) : List Nat :=
  (List.range 64).foldl
    (fun acc _ =>
      let n := acc.length
      acc ++ [rotl32 1 (((acc.getD (n - 3) 0) ^^^ (acc.getD (n - 8) 0))
        ^^^ ((acc.getD (n - 14) 0) ^^^ (acc.getD (n - 16) 0)))])
    ((List.range 16).map (word32At block))

/-- One SHA-1 round. -/
def sha1round (st : Nat × Nat × Nat × Nat × Nat) (iw : Nat × Nat) :
    Nat × Nat × Nat × Nat × Nat :=
  let (a, b, c, d, e) := st
  let (i, w) := iw
  let f :=
    if i < 20 then (b &&& c) ||| ((bnot32 b) &&& d)
    else if i < 40 then (b ^^^ c) ^^^ d
    else if i < 60 then ((b &&& c) ||| (b &&& d)) ||| (c &&& d)
    else (b ^^^ c) ^^^ d
  let k :=
    if i < 20 then 1518500249
    else if i < 40 then 1859775393
    else if i < 60 then 2400959708
    else 3395469782
  ((rotl32 5 a + f + e + k + w) % 2 ^ 32, a, rotl32 30 b, c, d)

/-- Process one 64-byte block. -/
def sha1block (h : Nat × Nat × Nat × Nat × Nat) (block : List Nat) :
    Nat × Nat × Nat × Nat × Nat :=
  let (h0, h1, h2, h3, h4) := h
  let (a, b, c, d, e) :=
    (((List.range 80).zip (sha1schedule block)).foldl sha1round (h0, h1, h2, h3, h4))
  ((h0 + a) % 2 ^ 32, (h1 + b) % 2 ^ 32, (h2 + c) % 2 ^ 32,
   (h3 + d) % 2 ^ 32, (h4 + e) % 2 ^ 32)

/-- Lower-case hex digit. -/
def hexDigit (n : Nat) : Char :=
  if n < 10 then Char.ofNat (48 + n) else Char.ofNat (87 + n)

/-- 8-digit lower-case hex of a 32-bit word. -/
def toHex8 (n : Nat) : List Char :=
  (List.range 8).map (fun i => hexDigit ((n / 2 ^ ((7 - i) * 4)) % 16))

/-- `hashlib.sha1(s.encode('utf-8')).hexdigest()`. -/
def sha1hex (s : String) : String :=
  let (h0, h1, h2, h3, h4) :=
    (chunks64 (sha1pad (utf8Bytes s))).foldl sha1block
      (1732584193, 4023233417, 2562383102, 271733878, 3285377520)
  ⟨toHex8 h0 ++ toHex8 h1 ++ toHex8 h2 ++ toHex8 h3 ++ toHex8 h4⟩

/-- `digest_id` (lines 279-290): `'b' + sha1-hexdigest[1:20]`. -/
def digest_id (wordage : String) : String :=
  "b" ++ ⟨((sha1hex wordage).data.drop 1).take 19⟩

/-
  Data model.  The entity classes live in `dipper/models/ClinVarRecord.py`,
  which is not part of the analysed sources; their field lists are modelled
  from the spec's §3 field contracts and from every access the analysed
  code makes.
-/

/-- Modelled from the spec: a Gene has an identifier (which may be absent)
and the raw association-to-allele relationship string. -/
structure Gene where
  id : Option String
  association_to_allele : String
deriving DecidableEq, Repr

/-- Modelled from the spec: an Allele (a ClinVar `Measure`). -/
structure Allele where
  id : String
  label : Option String
  variant_type : String
  synonyms : List String
  dbsnps : List String
  genes : List Gene
deriving DecidableEq, Repr

/-- Modelled from the spec: a Condition (a ClinVar disease `Trait`). -/
structure Condition where
  id : Option String
  label : Option String
  database : Option String
  medgen_id : Option String
deriving DecidableEq, Repr

/-- Modelled from the spec: a Variant (a ClinVar `MeasureSet`). -/
structure Variant where
  id : String
  label : Option String
  variant_type : Option String
  alleles : List Allele
deriving DecidableEq, Repr

/-- Modelled from the spec: a Genotype (a ClinVar `GenotypeSet`). -/
structure Genotype where
  id : String
  label : Option String
  variant_type : Option String
  variants : List Variant
deriving DecidableEq, Repr

/-- The discriminated Genotype/Variant union held by a record. -/
inductive GenoVar where
  | variant (v : Variant)
  | genotype (g : Genotype)
deriving DecidableEq, Repr

/-- The identifier of either union member. -/
def GenoVar.gid : GenoVar → String
  | .variant v => v.id
  | .genotype g => g.id

/-- The display label of either union member. -/
def GenoVar.glabel : GenoVar → Option String
  | .variant v => v.label
  | .genotype g => g.label

/-- The variant-type tag of either union member. -/
def GenoVar.gvtype : GenoVar → Option String
  | .variant v => v.variant_type
  | .genotype g => g.variant_type

/-- Modelled from the spec: the top-level ClinVarRecord. -/
structure ClinVarRecord where
  id : String
  accession : String
  created : String
  updated : String
  genovar : GenoVar
  significance : String
  conditions : List Condition
deriving DecidableEq, Repr

/-- A Python runtime value, as far as the rejection check inspects one:
`None`, a string, or a list (only its length matters). -/
inductive PyVal where
  | vnone
  | vstr (s : String)
  | vlist (n : Nat)
deriving DecidableEq, Repr

/-- `x is None` on a `PyVal`. -/
def pyIsNone : PyVal → Bool
  | .vnone => true
  | _ => false

/-- Lift an optional string to a `PyVal`. -/
def pyOfOpt : Option String → PyVal
  | some s => .vstr s
  | none => .vnone

/-- `vars(rcv.genovar)`: the instance `__dict__`, i.e. field names paired
with field values (field lists modelled from the spec's §3 contracts). -/
def vars_genovar : GenoVar → List (String × PyVal)
  | .variant v =>
    [("id", .vstr v.id), ("label", pyOfOpt v.label),
     ("variant_type", pyOfOpt v.variant_type), ("alleles", .vlist v.alleles.length)]
  | .genotype g =>
    [("id", .vstr g.id), ("label", pyOfOpt g.label),
     ("variant_type", pyOfOpt g.variant_type), ("variants", .vlist g.variants.length)]

/-- The source's genovar-completeness test (line 1022):
`[1 for member in vars(rcv.genovar) if member is None]`.  Iterating a dict
yields its *keys* — strings — so `member is None` tests the field *name*,
never the field value. -/
def genovar_missing_flag (g : GenoVar) : Bool :=
  (((vars_genovar g).map Prod.fst).filter
    (fun fieldname => pyIsNone (PyVal.vstr fieldname))) ≠ []

/-- The condition-usability test (lines 1023-1025): some condition carries
both an identifier and a database tag. -/
def has_usable_condition (conds : List Condition) : Bool :=
  conds.any (fun c => c.id.isSome && c.database.isSome)

/-- The record rejection predicate of the streaming driver (lines
1018-1037): the record-group is rejected (written verbatim to the reject
side-channel, counted, skipped) exactly when this is true. -/
def record_rejected (rcv : ClinVarRecord) : Bool :=
  genovar_missing_flag rcv.genovar || !has_usable_condition rcv.conditions

/-
  Record Model Builder: `process_measure_set` (lines 293-405).  The XML
  `MeasureSet` input is modelled structurally: exactly the attributes and
  child elements the function reads.
-/

/-- A `MeasureRelationship` child: its `Type` attribute and the optional
`XRef[@DB="Gene"]/@ID`. -/
structure MeasureRel where
  rel_type : String
  gene_id : Option String
deriving DecidableEq, Repr

/-- An `AttributeSet/Attribute[@Type]` child: the `Type` attribute and the
optional element text. -/
structure MeasureAttr where
  atype : String
  text : Option String
deriving DecidableEq, Repr

/-- A `Measure` child element of a `MeasureSet`. -/
structure Measure where
  mid : String
  mtype : String
  preferred_name : Option String
  attrs : List MeasureAttr
  dbsnp_ids : List String
  rels : List MeasureRel
deriving DecidableEq, Repr

/-- A `MeasureSet` element: its `ID` and `Type` attributes and `Measure`
children. -/
structure MeasureSet where
  msid : String
  mstype : String
  measures : List Measure
deriving DecidableEq, Repr

/-- Building one Allele from one `Measure` (lines 323-392): HGVS-typed
attributes with text become synonyms, each dbSNP xref contributes a typed
cross-reference and an `rs`-synonym, each `MeasureRelationship` a Gene. -/
def build_allele (m : Measure) : Allele :=
  { id := "ClinVarVariant:" ++ m.mid
    label := m.preferred_name
    variant_type := pyStripWs m.mtype
    synonyms :=
      ((m.attrs.filter (fun a => a.atype.startsWith "HGVS" && a.text.isSome)).map
        (fun a => a.text.getD "")) ++ m.dbsnp_ids.map (fun i => "rs" ++ i)
    dbsnps := m.dbsnp_ids.map (fun i => "dbSNP:" ++ i)
    genes := m.rels.map (fun r =>
      { id := r.gene_id, association_to_allele := pyStripWs r.rel_type }) }

/-- The recognised haplotype-family set-level type tags (lines 308-314). -/
def haplotypeTags : List String :=
  ["Haplotype", "Phase unknown", "Distinct chromosomes", "Haplotype, single variant"]

/-- The single-allele collapse (lines 394-399): exactly one allele child
takes the variant's identifier, and the variant takes the allele's type. -/
def collapse_single (v : Variant) : Variant :=
  match v.alleles with
  | [a] => { v with alleles := [{ a with id := v.id }],
                    variant_type := some a.variant_type }
  | _ => v

/-- `process_measure_set` (lines 293-405): tag the variant (a recognised
haplotype tag verbatim, `"Variant"` left to be inferred, anything else a
fatal error), build the alleles, collapse a single-allele variant, and fail
if no variant type could be inferred. -/
def process_measure_set (ms : MeasureSet) (rcv_acc : String) :
    Except String Variant := do
  let vt0 ←
    if haplotypeTags.contains ms.mstype then pure (some ms.mstype)
    else if ms.mstype = "Variant" then pure none
    else Except.error (rcv_acc ++ " UNKNOWN VARIANT SUPERTYPE / TYPE \n" ++ ms.mstype)
  let v : Variant :=
    { id := "ClinVarVariant:" ++ ms.msid, label := none,
      variant_type := vt0, alleles := ms.measures.map build_allele }
  let v := collapse_single v
  match v.variant_type with
  | none => Except.error (rcv_acc ++ " Unable to infer type from " ++ ms.mstype)
  | some _ => pure v

/-
  Statement Generator: `allele_to_triples` (lines 437-471) and
  `record_to_triples` (lines 474-603).
-/

/-- `'NCBIGene:' + gene` where the gene identifier may be Python `None`
(in which case the concatenation raises `TypeError`). -/
def optStrConcat (pre : String) (o : Option String) : Except String String :=
  match o with
  | some s => Except.ok (pre ++ s)
  | none => Except.error "TypeError: can only concatenate str (not NoneType) to str"

/-- Lookup in the gene→condition map (`g2p_map`), keyed by gene identifier;
a `None` gene is a key of no entry. -/
def g2pLookup (g2p : List (String × List String)) :
    Option String → Option (List String)
  | some g => (g2p.find? (fun p => p.1 = g)).map Prod.snd
  | none => none

/-- `allele_to_triples` (lines 437-471): type, taxon, optional label, dbSNP
cross-references and synonyms for one allele. -/
def allele_to_triples (cm ltt gtt : List (String × String)) (a : Allele) :
    Except String (List String) := do
  let t1 ← make_spo cm a.id (← dix gtt "type") (resolve ltt gtt a.variant_type)
    (some (blvTerm "SequenceVariant")) none
  let t2 ← make_spo cm a.id (← dix gtt "in taxon") (← dix gtt "Homo sapiens")
    none none
  let tl ←
    match a.label with
    | some l => do pure [← make_spo cm a.id (← dix gtt "label") l none none]
    | none => pure []
  let tx ← a.dbsnps.mapM (fun d => do
    make_spo cm a.id (← dix gtt "database_cross_reference") d
      (some (blvTerm "SequenceVariant")) (some (blvTerm "SequenceVariant")))
  let ts ← a.synonyms.mapM (fun syn => do
    make_spo cm a.id (← dix gtt "has_exact_synonym") syn
      (some (blvTerm "SequenceVariant")) (some (blvTerm "SequenceVariant")))
  pure ([t1, t2] ++ tl ++ tx ++ ts)

/-- The `(gene, association_to_allele)` pairs collected over a variant's
alleles (lines 502-505). -/
def collect_gene_allele (alleles : List Allele) : List (Option String × String) :=
  (alleles.map (fun a => a.genes.map
    (fun g => (g.id, g.association_to_allele)))).flatten

/-- The per-gene `is_affected` decision of the uniform-relationship branch
(lines 520-531): the significance must be the (likely-)pathogenic call and
— since the loop breaks on the first failing condition — *every* condition
must carry a MedGen id present in the gene's entry of the map.  The two
global-table lookups are evaluated in the source's short-circuit order. -/
def is_affected (gtt : List (String × String)) (g2p : List (String × List String))
    (sig : String) (conds : List Condition) (og : Option String) :
    Except String Bool := do
  let condsOk : Bool := conds.all (fun c =>
    match c.medgen_id, g2pLookup g2p og with
    | some m, some ids => ids.contains m
    | _, _ => false)
  let p1 ← dix gtt "pathogenic_for_condition"
  if sig = p1 then pure condsOk
  else do
    let p2 ← dix gtt "likely_pathogenic_for_condition"
    if sig = p2 then pure condsOk else pure false

/-- One statement of the uniform-relationship branch (lines 519-547): the
resolved relationship to an affected gene, a `part_of` statement
otherwise. -/
def attrib_one (cm ltt gtt : List (String × String))
    (g2p : List (String × List String)) (sig : String) (conds : List Condition)
    (vid : String) (p : Option String × String) : Except String String := do
  let aff ← is_affected gtt g2p sig conds p.1
  let gid ← optStrConcat "NCBIGene:" p.1
  if aff then
    make_spo cm vid (resolve ltt gtt p.2) gid
      (some (blvTerm "SequenceVariant")) (some (blvTerm "Gene"))
  else
    make_spo cm vid (← dix gtt "part_of") gid
      (some (blvTerm "SequenceVariant")) (some (blvTerm "Gene"))

/-- The gene-attribution block of the Variant branch (lines 517-558).  The
uniformity test indexes the local table directly (`LOCALTT[val[1]]`), so an
unmapped relationship string raises `KeyError`; when every relationship
maps to `'has_affected_feature'` each pair goes through `attrib_one`,
otherwise each allele gets an un-disambiguated `part_of` statement to each
of its genes. -/
def gene_attribution (cm ltt gtt : List (String × String))
    (g2p : List (String × List String)) (sig : String) (conds : List Condition)
    (vid : String) (alleles : List Allele) : Except String (List String) := do
  let ga := collect_gene_allele alleles
  let rels ← ga.mapM (fun p => dix ltt p.2)
  if (rels.filter (fun r => r = "has_affected_feature")).length = ga.length then
    ga.mapM (attrib_one cm ltt gtt g2p sig conds vid)
  else do
    let tss ← alleles.mapM (fun a => a.genes.mapM (fun g => do
      make_spo cm a.id (← dix gtt "part_of") (← optStrConcat "NCBIGene:" g.id)
        (some (blvTerm "SequenceVariant")) (some (blvTerm "SequenceVariant"))))
    pure tss.flatten

/-- `record_to_triples` (lines 474-603): the statement set of one accepted
record.  A `None` variant type would reach `make_spo` as a `None` object
and trip its assertion, modelled as the error branch here. -/
def record_to_triples (cm ltt gtt : List (String × String))
    (g2p : List (String × List String)) (rcv : ClinVarRecord) :
    Except String (List String) := do
  let ty ← dix gtt "type"
  let t1 ←
    match rcv.genovar.gvtype with
    | some vt =>
        make_spo cm rcv.genovar.gid ty (resolve ltt gtt vt)
          (some (blvTerm "SequenceVariant")) none
    | none => Except.error "AssertionError: None object"
  let t2 ← make_spo cm rcv.genovar.gid (← dix gtt "in taxon")
    (← dix gtt "Homo sapiens") none none
  let tl ←
    match rcv.genovar.glabel with
    | some l => do pure [← make_spo cm rcv.genovar.gid (← dix gtt "label") l none none]
    | none => pure []
  match rcv.genovar with
  | .variant v => do
    let hp ←
      if v.alleles.length > 1 then
        v.alleles.mapM (fun a => do
          make_spo cm v.id (← dix gtt "has_variant_part") a.id
            (some (blvTerm "SequenceVariant")) (some (blvTerm "SequenceVariant")))
      else pure []
    let bodies ← v.alleles.mapM (allele_to_triples cm ltt gtt)
    let attribs ← gene_attribution cm ltt gtt g2p rcv.significance rcv.conditions
      v.id v.alleles
    pure ([t1, t2] ++ tl ++ hp ++ bodies.flatten ++ attribs)
  | .genotype g => do
    let parts ← g.variants.mapM (fun v => do
      let w1 ← make_spo cm g.id (← dix gtt "has_variant_part") v.id
        (some (blvTerm "SequenceVariant")) (some (blvTerm "SequenceVariant"))
      let ws ← v.alleles.mapM (fun a => do
        let body ← allele_to_triples cm ltt gtt a
        let gws ← a.genes.mapM (fun gene => do
          make_spo cm a.id (resolve ltt gtt gene.association_to_allele)
            (← optStrConcat "NCBIGene:" gene.id)
            (some (blvTerm "SequenceVariant")) (some (blvTerm "SequenceVariant")))
        pure (body ++ gws))
      pure (w1 :: ws.flatten))
    let ga := (g.variants.map (fun v => collect_gene_allele v.alleles)).flatten
    let zyg ←
      if g.variant_type = some "CompoundHeterozygote" then do
        pure [← make_spo cm g.id (← dix gtt "has_zygosity")
          (← dix gtt "compound heterozygous")
          (some (blvTerm "SequenceVariant")) (some (blvTerm "Zygosity"))]
      else pure []
    let single ←
      if ((ga.filter (fun p =>
            p.2 == "within single gene" || p.2 == "variant in gene")).length
            == ga.length)
          && ((ga.map Prod.fst).dedup.length == 1) then
        match ga.head? with
        | some p => do
          pure [← make_spo cm g.id (← dix gtt "has_affected_feature")
            (← optStrConcat "NCBIGene:" p.1)
            (some (blvTerm "SequenceVariant")) (some (blvTerm "Gene"))]
        | none => pure []
      else pure []
    pure ([t1, t2] ++ tl ++ parts.flatten ++ zyg ++ single)

/-
  Streaming driver, per record-group (lines 1018-1517): the rejection
  check, the per-SCV-per-condition statement generation with its
  buffer-clearing `del rcvtriples[:]` branches, the sibling map, and the
  final `scv_link` over the group.  SCV inputs are modelled structurally
  with exactly the attributes and child elements the loop reads (the
  citation-comment and pretty-print paths that the analysed claims never
  touch are not represented).
-/

/-- An SCV `AttributeSet`: the optional `Attribute[@Type="AssertionMethod"]`
text and the optional `Citation/URL` text. -/
structure AttrSet where
  assertion_method : Option String
  citation_url : Option String
deriving DecidableEq, Repr

/-- An `ObservedData/Citation`: its PubMed `ID` texts. -/
structure Cit where
  pubmed_ids : List String
deriving DecidableEq, Repr

/-- An `ObservedData` element: citations and description attributes. -/
structure ObsData where
  cits : List Cit
  descriptions : List String
deriving DecidableEq, Repr

/-- An `ObservedIn` element: observed data and method types. -/
structure ObsIn where
  odata : List ObsData
  method_types : List String
deriving DecidableEq, Repr

/-- An SCV `ClinicalSignificance` element: evaluation date attribute,
PubMed citation ids, and the optional `Description` text. -/
structure ClinSig where
  eval_date : Option String
  pubmed_citations : List String
  description : Option String
deriving DecidableEq, Repr

/-- One child submission (`ClinVarAssertion`, SCV). -/
structure SCV where
  scv_id : String
  acc : String
  accver : String
  orgid : String
  submitter : String
  clinsig : ClinSig
  attr_sets : List AttrSet
  obs : List ObsIn
deriving DecidableEq, Repr

/-- Python dict assignment `d[k] = v` on an association list (replace in
place, else append). -/
def updateAssoc (l : List (String × String)) (k v : String) :
    List (String × String) :=
  if (l.find? (fun p => p.1 = k)).isSome then
    l.map (fun p => if p.1 = k then (k, v) else p)
  else l ++ [(k, v)]

/-- `':'.join(condition.id.split(':')[-2:])`. -/
def lastTwoJoined (segs : List String) : String :=
  String.intercalate ":" (segs.drop (segs.length - 2))

/-- The body of the SCV loop for one `(SCV, condition)` pair (lines
1078-1508), threading the per-record triple buffer and the pathogenicity
map.  `sas` is the `status_and_scores` dict.  The `del rcvtriples[:]`
branches return an empty buffer, discarding everything accumulated so far
for this record-group. -/
def scv_condition_step (cm ltt gtt sas : List (String × String))
    (rcv : ClinVarRecord) (review : Option String) (scv : SCV)
    (cond : Condition) (st : List String × List (String × String)) :
    Except String (List String × List (String × String)) := do
  let (buf, pathocalls) := st
  match cond.database with
  | none => pure st
  | some db => do
    let cid ←
      match cond.id with
      | some i => pure i
      | none => Except.error "AttributeError: NoneType has no attribute split"
    let rcv_disease_curie :=
      if (pySplitS ':' cid).length = 1 then db ++ ":" ++ cid
      else lastTwoJoined (pySplitS ':' cid)
    let monarch_id := digest_id (rcv.id ++ scv.scv_id ++ cid)
    let monarch_assoc := "MONARCH:" ++ monarch_id
    let w0 ←
      match review with
      | some r => do
          pure [← make_spo cm monarch_assoc
            (← dix gtt "assertion_confidence_score") (← dix sas r) none none]
      | none => pure []
    let ev_id := "_:" ++ digest_id (monarch_id ++ "_evidence")
    let w1 ← make_spo cm ev_id (← dix gtt "label") (monarch_id ++ "_evidence")
      (some (blvTerm "EvidenceType")) none
    let as_id := "_:" ++ digest_id (monarch_id ++ "_assertion")
    let w2 ← make_spo cm as_id (← dix gtt "label") (monarch_id ++ "_assertion")
      (some (blvTerm "InformationContentEntity")) none
    let w3 ← make_spo cm monarch_assoc (← dix gtt "type") (← dix gtt "association")
      (some (blvTerm "Association")) (some (blvTerm "OntologyClass"))
    let w4 ← make_spo cm monarch_assoc (← dix gtt "association has subject")
      rcv.genovar.gid (some (blvTerm "Association")) (some (blvTerm "SequenceVariant"))
    let w5 ← make_spo cm monarch_assoc (← dix gtt "association has object")
      rcv_disease_curie (some (blvTerm "Association")) (some (blvTerm "Disease"))
    let w6 ←
      match cond.label with
      | some l => do
          pure [← make_spo cm rcv_disease_curie (← dix gtt "label") l
            (some (blvTerm "Disease")) none]
      | none => pure []
    let w7 ← make_spo cm monarch_assoc (← dix gtt "has_supporting_evidence_line")
      ev_id (some (blvTerm "Association")) (some (blvTerm "EvidenceType"))
    let w8 ← make_spo cm monarch_assoc (← dix gtt "is_asserted_in") as_id
      (some (blvTerm "Association")) (some (blvTerm "InformationContentEntity"))
    let w9 ← make_spo cm ev_id (← dix gtt "type") (← dix gtt "evidence")
      (some (blvTerm "EvidenceType")) (some (blvTerm "OntologyClass"))
    let w10 ← make_spo cm as_id (← dix gtt "type") (← dix gtt "assertion")
      (some (blvTerm "InformationContentEntity")) (some (blvTerm "OntologyClass"))
    let w11 ← make_spo cm as_id (← dix gtt "label")
      ("ClinVarAssertion_" ++ scv.scv_id)
      (some (blvTerm "InformationContentEntity")) none
    let w12 ← make_spo cm as_id (← dix gtt "is_assertion_supported_by_evidence")
      ev_id (some (blvTerm "InformationContentEntity")) none
    let w13 ← make_spo cm as_id (← dix gtt "identifier")
      (scv.acc ++ "." ++ scv.accver)
      (some (blvTerm "InformationContentEntity"))
      (some (blvTerm "InformationContentEntity"))
    let w14 ← make_spo cm as_id (← dix gtt "created_by")
      ("ClinVarSubmitters:" ++ scv.orgid)
      (some (blvTerm "InformationContentEntity")) (some (blvTerm "Provider"))
    let w15 ← make_spo cm ("ClinVarSubmitters:" ++ scv.orgid) (← dix gtt "type")
      (← dix gtt "organization")
      (some (blvTerm "Provider")) (some (blvTerm "Provider"))
    let w16 ← make_spo cm ("ClinVarSubmitters:" ++ scv.orgid) (← dix gtt "label")
      scv.submitter (some (blvTerm "Provider")) none
    let scvEvalDate :=
      match scv.clinsig.eval_date with
      | some d => d
      | none => "None"
    let wAttr ← scv.attr_sets.mapM (fun aset => do
      match aset.assertion_method with
      | none => pure []
      | some meth => do
        let d ←
          if scvEvalDate ≠ "None" then do
            pure [← make_spo cm as_id (← dix gtt "Date Created") scvEvalDate
              (some (blvTerm "InformationContentEntity")) none]
          else pure []
        let am_id := "_:" ++ digest_id (meth ++ "_assertionmethod")
        let a1 ← make_spo cm am_id (← dix gtt "label")
          (meth ++ "_assertionmethod") (some (blvTerm "Procedure")) none
        let a2 ← make_spo cm as_id (← dix gtt "is_specified_by") am_id
          (some (blvTerm "InformationContentEntity")) (some (blvTerm "Procedure"))
        let a3 ← make_spo cm am_id (← dix gtt "type")
          (← dix gtt "assertion method") (some (blvTerm "Procedure")) none
        let a4 ← make_spo cm am_id (← dix gtt "label") meth
          (some (blvTerm "Procedure")) none
        let a5 ←
          match aset.citation_url with
          | some u => do
              pure [← make_spo cm am_id (← dix gtt "has_url") u
                (some (blvTerm "Procedure"))
                (some (blvTerm "InformationContentEntity"))]
          | none => pure []
        pure (d ++ [a1, a2, a3, a4] ++ a5))
    let wCit ← scv.clinsig.pubmed_citations.mapM (fun pid => do
      let c1 ← make_spo cm ev_id (← dix gtt "has_supporting_reference")
        ("PMID:" ++ pid) (some (blvTerm "EvidenceType")) (some (blvTerm "Publication"))
      let c2 ← make_spo cm monarch_assoc (← dix gtt "Source") ("PMID:" ++ pid)
        (some (blvTerm "Association")) (some (blvTerm "Publication"))
      let c3 ← make_spo cm ("PMID:" ++ pid) (← dix gtt "type")
        (← dix gtt "journal article") (some (blvTerm "Publication")) none
      pure [c1, c2, c3])
    let buf1 := buf ++ w0 ++ [w1, w2, w3, w4, w5] ++ w6
      ++ [w7, w8, w9, w10, w11, w12, w13, w14, w15, w16]
      ++ wAttr.flatten ++ wCit.flatten
    match scv.clinsig.description with
    | none => pure ([], pathocalls)
    | some desc => do
      let scv_significance := pyStripWs desc
      let scv_geno := resolve ltt gtt scv_significance
      let lv ← dix ltt scv_significance
      if lv ≠ "has_uncertain_significance_for_condition"
          ∧ scv_significance ≠ "protective" then do
        let s1 ← make_spo cm monarch_assoc (← dix gtt "association has predicate")
          scv_geno (some (blvTerm "Association")) none
        let s2 ← make_spo cm rcv.genovar.gid scv_geno rcv_disease_curie
          (some (blvTerm "SequenceVariant")) (some (blvTerm "Disease"))
        let s3 ← make_spo cm monarch_assoc (← dix gtt "database_cross_reference")
          ("ClinVar:" ++ rcv.accession)
          (some (blvTerm "Association")) (some (blvTerm "InformationContentEntity"))
        let pathocalls2 := updateAssoc pathocalls monarch_assoc scv_geno
        let buf2 := buf1 ++ [s1, s2, s3]
        if buf2 = [] then pure (buf2, pathocalls2)
        else do
          let wObs ← scv.obs.mapM (fun oi => do
            let wd ← oi.odata.mapM (fun od => do
              let wc ← od.cits.mapM (fun cit => do
                cit.pubmed_ids.mapM (fun pid => do
                  let o1 ← make_spo cm ev_id (← dix gtt "has_supporting_reference")
                    ("PMID:" ++ pid)
                    (some (blvTerm "EvidenceType")) (some (blvTerm "Publication"))
                  let o2 ← make_spo cm ("PMID:" ++ pid) (← dix gtt "type")
                    (← dix gtt "journal article")
                    (some (blvTerm "Publication"))
                    (some (blvTerm "InformationContentEntity"))
                  let o3 ← make_spo cm monarch_assoc (← dix gtt "Source")
                    ("PMID:" ++ pid)
                    (some (blvTerm "Association")) (some (blvTerm "Publication"))
                  pure [o1, o2, o3]))
              let wdesc ← od.descriptions.mapM (fun dsc => do
                if dsc ≠ "not provided" then do
                  pure [← make_spo cm ev_id (← dix gtt "description") dsc
                    (some (blvTerm "EvidenceType")) none]
                else pure [])
              pure ((wc.map List.flatten).flatten ++ wdesc.flatten))
            let wm ← oi.method_types.mapM (fun mt => do
              if mt ≠ "not provided" then do
                let et := resolve ltt gtt (pyStripWs mt)
                let prov_id := "_:" ++ digest_id (ev_id ++ et)
                let m1 ← make_spo cm prov_id (← dix gtt "label") (ev_id ++ et)
                  (some (blvTerm "EvidenceType")) none
                let m2 ← make_spo cm ev_id (← dix gtt "has_supporting_activity")
                  prov_id (some (blvTerm "EvidenceType")) (some (blvTerm "EvidenceType"))
                let m3 ← make_spo cm prov_id (← dix gtt "type") et
                  (some (blvTerm "EvidenceType")) (some (blvTerm "OntologyClass"))
                let m4 ← make_spo cm prov_id (← dix gtt "label") mt
                  (some (blvTerm "EvidenceType")) none
                pure [m1, m2, m3, m4]
              else pure [])
            pure (wd.flatten ++ wm.flatten))
          pure (buf2 ++ wObs.flatten, pathocalls2)
      else pure ([], pathocalls)

/-- One whole record-group (`ClinVarSet`) of the main loop (lines
1018-1517): reject (contributing nothing) or generate the record's
statements, run every SCV against every condition, then append the sibling
links; the returned list is this group's contribution to the release
statement set. -/
def process_clinvar_set (cm ltt gtt sas : List (String × String))
    (g2p : List (String × List String)) (rcv : ClinVarRecord)
    (review : Option String) (scvs : List SCV) : Except String (List String) := do
  if record_rejected rcv then pure []
  else do
    let rt ← record_to_triples cm ltt gtt g2p rcv
    let st ← scvs.foldlM (fun st scv =>
      rcv.conditions.foldlM
        (fun st c => scv_condition_step cm ltt gtt sas rcv review scv c st) st)
      (rt, ([] : List (String × String)))
    let links ← scv_link cm st.2
    pure (st.1 ++ links)

/-
  Concrete instances used by the counterexample / evaluation theorems: a
  small namespace registry (CURIEMAP), global and local translation tables,
  the review-status score table and a gene→condition map, consistent with
  the external files the source loads.
-/

/-- A concrete CURIEMAP (with the source's module-level
`CURIEMAP['_'] = 'https://monarchinitiative.org/.well-known/genid/'`). -/
def cmX : List (String × String) :=
  [("_", "https://monarchinitiative.org/.well-known/genid/"),
   ("rdf", "http://www.w3.org/1999/02/22-rdf-syntax-ns#"),
   ("rdfs", "http://www.w3.org/2000/01/rdf-schema#"),
   ("GENO", "http://purl.obolibrary.org/obo/GENO_"),
   ("SEPIO", "http://purl.obolibrary.org/obo/SEPIO_"),
   ("OBAN", "http://purl.org/oban/"),
   ("MONARCH", "https://monarchinitiative.org/MONARCH_"),
   ("ClinVarVariant", "http://www.ncbi.nlm.nih.gov/clinvar/variation/"),
   ("ClinVarSubmitters", "http://www.ncbi.nlm.nih.gov/clinvar/submitters/"),
   ("ClinVar", "http://www.ncbi.nlm.nih.gov/clinvar/"),
   ("NCBIGene", "http://www.ncbi.nlm.nih.gov/gene/"),
   ("PMID", "http://www.ncbi.nlm.nih.gov/pubmed/"),
   ("dc", "http://purl.org/dc/terms/"),
   ("foaf", "http://xmlns.com/foaf/0.1/"),
   ("ECO", "http://purl.obolibrary.org/obo/ECO_"),
   ("BFO", "http://purl.obolibrary.org/obo/BFO_"),
   ("RO", "http://purl.obolibrary.org/obo/RO_"),
   ("SO", "http://purl.obolibrary.org/obo/SO_"),
   ("NCBITaxon", "http://purl.obolibrary.org/obo/NCBITaxon_"),
   ("IAO", "http://purl.obolibrary.org/obo/IAO_"),
   ("OMIM", "https://omim.org/entry/"),
   ("ERO", "http://purl.obolibrary.org/obo/ERO_"),
   ("oboInOwl", "http://www.geneontology.org/formats/oboInOwl#"),
   ("biolink", "https://w3id.org/biolink/vocab/"),
   ("dbSNP", "http://www.ncbi.nlm.nih.gov/projects/SNP/snp_ref.cgi?rs=")]

/-- A concrete global translation table holding every key the analysed
paths index. -/
def gttX : List (String × String) :=
  [("type", "rdf:type"), ("label", "rdfs:label"),
   ("in taxon", "RO:0002162"), ("Homo sapiens", "NCBITaxon:9606"),
   ("has_variant_part", "GENO:0000382"), ("part_of", "BFO:0000050"),
   ("has_affected_feature", "GENO:0000418"),
   ("pathogenic_for_condition", "GENO:0000840"),
   ("likely_pathogenic_for_condition", "GENO:0000841"),
   ("benign_for_condition", "GENO:0000843"),
   ("likely_benign_for_condition", "GENO:0000844"),
   ("has_uncertain_significance_for_condition", "GENO:0000845"),
   ("database_cross_reference", "oboInOwl:hasDbXref"),
   ("has_exact_synonym", "oboInOwl:hasExactSynonym"),
   ("assertion_confidence_score", "SEPIO:0000300"),
   ("association", "OBAN:association"),
   ("association has subject", "OBAN:association_has_subject"),
   ("association has object", "OBAN:association_has_object"),
   ("association has predicate", "OBAN:association_has_predicate"),
   ("has_supporting_evidence_line", "SEPIO:0000007"),
   ("is_asserted_in", "SEPIO:0000015"),
   ("evidence", "ECO:0000000"), ("assertion", "SEPIO:0000001"),
   ("is_assertion_supported_by_evidence", "SEPIO:0000111"),
   ("identifier", "dc:identifier"), ("created_by", "SEPIO:0000018"),
   ("organization", "foaf:organization"), ("Date Created", "SEPIO:0000021"),
   ("is_specified_by", "SEPIO:0000041"),
   ("assertion method", "SEPIO:0000037"), ("has_url", "ERO:0000480"),
   ("has_supporting_reference", "SEPIO:0000124"), ("Source", "dc:source"),
   ("journal article", "IAO:0000013"), ("has_zygosity", "GENO:0000608"),
   ("compound heterozygous", "GENO:0000402"),
   ("description", "dc:description"),
   ("has_supporting_activity", "SEPIO:0000011"),
   ("comment", "rdfs:comment"), ("SNV", "SO:0001483")]

/-- A concrete local translation table. -/
def lttX : List (String × String) :=
  [("Pathogenic", "pathogenic_for_condition"),
   ("Likely pathogenic", "likely_pathogenic_for_condition"),
   ("Benign", "benign_for_condition"),
   ("Likely benign", "likely_benign_for_condition"),
   ("Uncertain significance", "has_uncertain_significance_for_condition"),
   ("protective", "protective"),
   ("within single gene", "has_affected_feature"),
   ("variant in gene", "has_affected_feature"),
   ("genes overlapped by variant", "part_of"),
   ("single nucleotide variant", "SNV")]

/-- The `status_and_scores` dict of `parse` (lines 811-819). -/
def sasX : List (String × String) :=
  [("no assertion criteria provided", "0"), ("no assertion provided", "0"),
   ("criteria provided, single submitter", "1"),
   ("criteria provided, conflicting interpretations", "1"),
   ("criteria provided, multiple submitters, no conflicts", "2"),
   ("reviewed by expert panel", "3"), ("practice guideline", "4")]

/-- A concrete gene→condition map: gene 5216 is curated for MedGen concept
C001. -/
def g2pX : List (String × List String) := [("5216", ["C001"])]

/-- The allele of the C1 counterexample record: one gene (5216) related by
`'within single gene'`. -/
def alleleC1 : Allele :=
  { id := "ClinVarVariant:999", label := some "var999 label",
    variant_type := "single nucleotide variant", synonyms := [], dbsnps := [],
    genes := [{ id := some "5216", association_to_allele := "within single gene" }] }

/-- A record whose significance is the pathogenic call and whose first
condition's MedGen id is curated for gene 5216 while the second condition
carries no MedGen id at all. -/
def rcvC1 : ClinVarRecord :=
  { id := "57", accession := "RCV000000057",
    created := "2020-01-01", updated := "2020-06-01",
    genovar := GenoVar.variant
      { id := "ClinVarVariant:999", label := some "var999 label",
        variant_type := some "single nucleotide variant", alleles := [alleleC1] },
    significance := "GENO:0000840",
    conditions :=
      [{ id := some "100100", label := some "Condition one",
         database := some "OMIM", medgen_id := some "C001" },
       { id := some "100200", label := some "Condition two",
         database := some "OMIM", medgen_id := none }] }

/-- The `part_of` statement the C1 record actually emits for gene 5216. -/
def partofStmtC1 : String :=
  "<http://www.ncbi.nlm.nih.gov/clinvar/variation/999> <http://purl.obolibrary.org/obo/BFO_0000050> <http://www.ncbi.nlm.nih.gov/gene/5216> .\n"

/-- The resolved-relationship statement the claim expects for gene 5216. -/
def affectedStmtC1 : String :=
  "<http://www.ncbi.nlm.nih.gov/clinvar/variation/999> <http://purl.obolibrary.org/obo/GENO_0000418> <http://www.ncbi.nlm.nih.gov/gene/5216> .\n"

/-- A record identical in shape to `rcvC1` but whose allele-to-gene
relationship string has no local-table entry. -/
def rcvC10 : ClinVarRecord :=
  { id := "58", accession := "RCV000000058",
    created := "2020-01-01", updated := "2020-06-01",
    genovar := GenoVar.variant
      { id := "ClinVarVariant:998", label := some "var998 label",
        variant_type := some "single nucleotide variant",
        alleles :=
          [{ id := "ClinVarVariant:998", label := some "var998 label",
             variant_type := "single nucleotide variant", synonyms := [],
             dbsnps := [],
             genes := [{ id := some "5216",
                         association_to_allele := "mystery relation" }] }] },
    significance := "GENO:0000840",
    conditions :=
      [{ id := some "100100", label := some "Condition one",
         database := some "OMIM", medgen_id := some "C001" }] }

/-- A record whose Variant has an unset (None) display label but whose
condition list contains a fully usable condition. -/
def rcvC2 : ClinVarRecord :=
  { id := "59", accession := "RCV000000059",
    created := "2020-01-01", updated := "2020-06-01",
    genovar := GenoVar.variant
      { id := "ClinVarVariant:997", label := none,
        variant_type := some "Haplotype",
        alleles :=
          [{ id := "ClinVarVariant:996", label := none,
             variant_type := "single nucleotide variant", synonyms := [],
             dbsnps := [], genes := [] }] },
    significance := "GENO:0000840",
    conditions :=
      [{ id := some "100100", label := some "Condition one",
         database := some "OMIM", medgen_id := some "C001" }] }

/-- The accepted record of the C9 scenario (a gene-free single allele, one
usable OMIM condition). -/
def rcvC9 : ClinVarRecord :=
  { id := "500", accession := "RCV000000500",
    created := "2019-01-01", updated := "2019-06-01",
    genovar := GenoVar.variant
      { id := "ClinVarVariant:500", label := some "var500 label",
        variant_type := some "single nucleotide variant",
        alleles :=
          [{ id := "ClinVarVariant:500", label := some "var500 label",
             variant_type := "single nucleotide variant", synonyms := [],
             dbsnps := [], genes := [] }] },
    significance := "GENO:0000840",
    conditions :=
      [{ id := some "600123", label := some "Some disease",
         database := some "OMIM", medgen_id := some "C600" }] }

/-- C9's first child submission: an explicit `Pathogenic` call. -/
def scvC9a : SCV :=
  { scv_id := "111", acc := "SCV000000111", accver := "1", orgid := "26957",
    submitter := "Lab A",
    clinsig := { eval_date := none, pubmed_citations := [],
                 description := some "Pathogenic" },
    attr_sets := [], obs := [] }

/-- C9's second child submission: its description resolves to the
uncertain-significance call. -/
def scvC9b : SCV :=
  { scv_id := "222", acc := "SCV000000222", accver := "1", orgid := "26958",
    submitter := "Lab B",
    clinsig := { eval_date := none, pubmed_citations := [],
                 description := some "Uncertain significance" },
    attr_sets := [], obs := [] }

/-- A single-measure `MeasureSet` of set-level type `"Variant"` for the C8
witness. -/
def msC8 : MeasureSet :=
  { msid := "242681", mstype := "Variant",
    measures :=
      [{ mid := "46900", mtype := "single nucleotide variant",
         preferred_name := some "m label", attrs := [],
         dbsnp_ids := ["121908377"],
         rels := [{ rel_type := "within single gene", gene_id := some "5216" }] }] }

/-- `Except.ok` with a nonempty payload. -/
def isOkNonempty : Except String (List String) → Bool
  | .ok (_ :: _) => true
  | _ => false

/-- The per-character effect of the whole five-stage escape pipeline of
`make_spo`'s plain-literal branch. -/
def escChar (c : Char) : List Char :=
  if c = '\\' then ['\\', '\\']
  else if c = dq then [apos]
  else if c = '\n' then ['\\', 'n']
  else if c = '\r' then ['\\', 'r']
  else if c = '\t' then ['\\', 't']
  else [c]

/-- A token that `make_spo` accepts as subject or predicate: it splits at
exactly one colon and its prefix is registered. -/
def curieOkFor (cm : List (String × String)) (s : String) : Prop :=
  ∃ a b u, pySplitS ':' s = [a, b] ∧ ttLookup cm a = some u

/-- The five pathogenicity-call identifiers of `scv_link`'s weight table. -/
def sigKeys : List String := sigTable.map Prod.fst

/-
  Theorems.
-/

set_option maxRecDepth 100000

/-- C2: the driver's rejection test is meant to reject a record whose
Genotype/Variant union has an unset required field, but
`[1 for member in vars(rcv.genovar) if member is None]` iterates the
`__dict__` *keys* (field-name strings, never `None`), so the flag is false
for every genovar; the record `rcvC2`, whose Variant has an unset label but
a fully usable condition, is therefore accepted even though the claim says
it must be rejected. -/
theorem c2_theorem :
    (∀ g : GenoVar, genovar_missing_flag g = false)
    ∧ (vars_genovar rcvC2.genovar).any (fun p => pyIsNone p.2) = true
    ∧ record_rejected rcvC2 = false := by
  refine ⟨?_, by decide, by decide⟩
  intro g
  cases g <;> rfl

/-- C5: a call with a registered-prefix subject and object and both
category tags supplied returns only the main statement: `make_spo` hands
the already-expanded, angle-bracket-wrapped tokens to `is_literal`, which
classifies them as literals, so the auxiliary category statements the claim
(and the function's docstring) promise are never emitted. -/
theorem c5_theorem :
    make_spo cmX "ClinVarVariant:123" "rdf:type" "GENO:0000840"
      (some (blvTerm "SequenceVariant")) (some (blvTerm "OntologyClass")) =
      Except.ok "<http://www.ncbi.nlm.nih.gov/clinvar/variation/123> <http://www.w3.org/1999/02/22-rdf-syntax-ns#type> <http://purl.obolibrary.org/obo/GENO_0000840> .\n"
    ∧ is_literal "<http://www.ncbi.nlm.nih.gov/clinvar/variation/123>" = true
    ∧ is_literal "<http://purl.obolibrary.org/obo/GENO_0000840>" = true := by
  exact ⟨rfl, by decide, by decide⟩

/-- C10: on an accepted Variant record whose allele-to-gene relationship
string has no local-table entry, the uniformity test `LOCALTT[val[1]]`
raises `KeyError` and the statement generator aborts, even though the
vocabulary resolver itself would have fallen through and returned the raw
label unchanged. -/
theorem c10_theorem :
    record_to_triples cmX lttX gttX g2pX rcvC10 =
      Except.error "KeyError: mystery relation"
    ∧ resolve lttX gttX "mystery relation" = "mystery relation" := by
  exact ⟨rfl, rfl⟩

/-- C9: the record `rcvC9` generates a nonempty statement buffer, and with
its first submission alone the record-group contributes a nonempty set; but
adding a second submission whose description resolves to the
uncertain-significance call makes the group's whole contribution empty —
`del rcvtriples[:]` clears the record's own statements and the first
submission's statements, not just the offending submission. -/
theorem c9_theorem :
    isOkNonempty (record_to_triples cmX lttX gttX g2pX rcvC9) = true
    ∧ isOkNonempty (process_clinvar_set cmX lttX gttX sasX g2pX rcvC9
        (some "criteria provided, single submitter") [scvC9a]) = true
    ∧ process_clinvar_set cmX lttX gttX sasX g2pX rcvC9
        (some "criteria provided, single submitter") [scvC9a, scvC9b] =
        Except.ok [] := by
  refine ⟨by decide, by decide, by rfl⟩

/-- C1 (counterexample): on `rcvC1` the claim's own condition holds — the
significance is the pathogenic call and at least one condition (the first)
has its MedGen id in gene 5216's map entry — yet the record emits the
weaker `part_of` statement for the gene and not the resolved-relationship
statement, because the code's loop requires *every* condition to match and
the second condition has no MedGen id. -/
theorem c1_counterexample :
    (∃ ts, record_to_triples cmX lttX gttX g2pX rcvC1 = Except.ok ts
      ∧ partofStmtC1 ∈ ts ∧ affectedStmtC1 ∉ ts)
    ∧ rcvC1.significance = "GENO:0000840"
    ∧ ttLookup gttX "pathogenic_for_condition" = some "GENO:0000840"
    ∧ (∃ c, c ∈ rcvC1.conditions ∧ ∃ ids, c.medgen_id = some "C001"
        ∧ g2pLookup g2pX (some "5216") = some ids ∧ "C001" ∈ ids)
    ∧ make_spo cmX "ClinVarVariant:999" (resolve lttX gttX "within single gene")
        "NCBIGene:5216" (some (blvTerm "SequenceVariant")) (some (blvTerm "Gene"))
        = Except.ok affectedStmtC1
    ∧ (collect_gene_allele [alleleC1]).map Prod.snd = ["within single gene"]
    ∧ dix lttX "within single gene" = Except.ok "has_affected_feature" := by
  refine ⟨⟨_, rfl, by decide, by decide⟩, rfl, rfl, ?_, rfl, rfl, rfl⟩
  exact ⟨{ id := some "100100", label := some "Condition one",
           database := some "OMIM", medgen_id := some "C001" },
         by decide, ["C001"], rfl, rfl, by decide⟩

/-- C7: the resolver's two-level cascade re-resolves a local hit through
the global table in preference to a direct global entry for the raw label,
and a label present in neither table is returned unchanged. -/
theorem c7_theorem :
    resolve [("A", "X")] [("X", "PREFIX:1"), ("A", "PREFIX:2")] "A" = "PREFIX:1"
    ∧ ∀ (ltt gtt : List (String × String)) (label : String),
        ttLookup ltt label = none → ttLookup gtt label = none →
        resolve ltt gtt label = label := by
  refine ⟨rfl, ?_⟩
  intro ltt gtt label h1 h2
  simp [resolve, h1, h2]

/-- Witness for C7's fall-through clause at a concrete unmapped label. -/
theorem c7_witness :
    resolve [("A", "X")] [("X", "PREFIX:1")] "unmapped label" = "unmapped label" :=
  c7_theorem.2 [("A", "X")] [("X", "PREFIX:1")] "unmapped label" rfl rfl

/-- `concatMapL` distributes over cons. -/
theorem concatMapL_cons (f : Char → List Char) (c : Char) (l : List Char) :
    concatMapL f (c :: l) = f c ++ concatMapL f l := by
  simp [concatMapL]

/-- `concatMapL` distributes over append. -/
theorem concatMapL_append (f : Char → List Char) (a b : List Char) :
    concatMapL f (a ++ b) = concatMapL f a ++ concatMapL f b := by
  simp [concatMapL]

/-- The composed five-stage escape distributes over append. -/
theorem escStages_append (a b : List Char) :
    replTab (replCR (replLF (replQuote (replBackslash (a ++ b))))) =
      replTab (replCR (replLF (replQuote (replBackslash a)))) ++
      replTab (replCR (replLF (replQuote (replBackslash b)))) := by
  simp [replBackslash, replQuote, replLF, replCR, replTab, concatMapL_append]

/-- The composed five-stage escape acts per character as `escChar`. -/
theorem escStages_cons (c : Char) (l : List Char) :
    replTab (replCR (replLF (replQuote (replBackslash (c :: l))))) =
      escChar c ++ replTab (replCR (replLF (replQuote (replBackslash l)))) := by
  have h : (c :: l) = [c] ++ l := rfl
  rw [h, escStages_append]
  congr 1
  by_cases h1 : c = '\\'
  · subst h1; rfl
  by_cases h2 : c = dq
  · subst h2; rfl
  by_cases h3 : c = '\n'
  · subst h3; rfl
  by_cases h4 : c = '\r'
  · subst h4; rfl
  by_cases h5 : c = '\t'
  · subst h5; rfl
  simp [escChar, replBackslash, replQuote, replLF, replCR, replTab, concatMapL,
    h1, h2, h3, h4, h5]

/-- `unescape_chars` passes over an ordinary (non-backslash) character. -/
theorem unescape_chars_cons_ne (c : Char) (rest : List Char) (h : c ≠ '\\') :
    unescape_chars (c :: rest) = c :: unescape_chars rest := by
  rw [unescape_chars.eq_def]
  simp [h]

/-- Unescaping inverts the five-stage escape on quote-free input. -/
theorem unescape_escStages (l : List Char) (h : ∀ c ∈ l, c ≠ dq) :
    unescape_chars (replTab (replCR (replLF (replQuote (replBackslash l))))) = l := by
  induction l with
  | nil => rfl
  | cons c t ih =>
    have hc : c ≠ dq := h c (by simp)
    have ht : ∀ x ∈ t, x ≠ dq := fun x hx => h x (by simp [hx])
    rw [escStages_cons]
    by_cases h1 : c = '\\'
    · subst h1
      simpa [escChar, unescape_chars, unEsc] using ih ht
    by_cases h3 : c = '\n'
    · subst h3
      simpa [escChar, unescape_chars, unEsc] using ih ht
    by_cases h4 : c = '\r'
    · subst h4
      simpa [escChar, unescape_chars, unEsc] using ih ht
    by_cases h5 : c = '\t'
    · subst h5
      simpa [escChar, unescape_chars, unEsc] using ih ht
    · have he : escChar c = [c] := by simp [escChar, h1, hc, h3, h4, h5]
      rw [he, List.singleton_append, unescape_chars_cons_ne c _ h1, ih ht]

/-- Stripping quote characters from a quote-free list changes nothing. -/
theorem stripQuotes_eq_self (l : List Char) (h : ∀ c ∈ l, c ≠ dq) :
    stripQuotes l = l := by
  unfold stripQuotes stripBoth
  have h1 : l.dropWhile (fun c => c = dq) = l := by
    cases l with
    | nil => rfl
    | cons c t => simp [List.dropWhile, h c (by simp)]
  rw [h1]
  have h2 : l.reverse.dropWhile (fun c => c = dq) = l.reverse := by
    cases hr : l.reverse with
    | nil => rfl
    | cons c t =>
      have hc : c ∈ l := by
        have : c ∈ l.reverse := by rw [hr]; simp
        simpa using this
      simp [List.dropWhile, h c hc]
  rw [h2, List.reverse_reverse]

/-- C4 (counterexample): the codec does not escape a double quote — it
replaces it with an apostrophe (after stripping enclosing quotes) — so
re-parsing and unescaping the emitted literal for `a"b` yields `a'b`, not
the original string. -/
theorem c4_counterexample :
    escape_literal "a\"b" = String.mk ['a', apos, 'b']
    ∧ unescape_literal (escape_literal "a\"b") ≠ "a\"b"
    ∧ obj_token [] "a\"b" = String.mk [dq, 'a', apos, 'b', dq] := by
  exact ⟨by decide, by decide, by decide⟩

/-- C4 (amended): for any object string containing no double quote —
whatever backslashes, newlines, carriage returns or tabs it contains — the
emitted plain literal's escaping is inverted exactly by unescaping, so the
round trip reproduces the original string. -/
theorem c4_theorem (s : String) (h : dq ∉ s.data) :
    unescape_literal (escape_literal s) = s := by
  have h' : ∀ c ∈ s.data, c ≠ dq := by
    intro c hc hEq
    exact h (hEq ▸ hc)
  unfold unescape_literal escape_literal
  rw [stripQuotes_eq_self s.data h', unescape_escStages s.data h']

/-- Witness for C4's amended round trip at a string containing a backslash,
a newline and a tab. -/
theorem c4_witness :
    dq ∉ ("a\\b\nc\td" : String).data
    ∧ unescape_literal (escape_literal "a\\b\nc\td") = "a\\b\nc\td" :=
  ⟨by decide, c4_theorem "a\\b\nc\td" (by decide)⟩

/-- A colon-free token never matches the CURIE pattern. -/
theorem matchCURIERE_no_colon (l : List Char) (h : ∀ c ∈ l, c ≠ ':') :
    matchCURIERE l = false := by
  induction l with
  | nil => rfl
  | cons c t ih =>
    have hc : c ≠ ':' := h c (by simp)
    have ht : ∀ x ∈ t, x ≠ ':' := fun x hx => h x (by simp [hx])
    simp [matchCURIERE, hc, ih ht]

/-- A nonempty all-digit token has no colon. -/
theorem digits_no_colon (l : List Char) (h : l.all Char.isDigit = true) :
    ∀ c ∈ l, c ≠ ':' := by
  intro c hc hEq
  have := (List.all_eq_true.mp h) c hc
  rw [hEq] at this
  exact absurd this (by decide)

/-- C6 (counterexample): the object `"3.14"` is emitted as a *plain string
literal*, not as a double-typed literal: Python's `str.isnumeric` is false
for a string containing a decimal point, so the double branch is never
taken for it. -/
theorem c6_counterexample :
    make_spo cmX "ClinVarVariant:123" "rdf:type" "3.14" none none =
      Except.ok "<http://www.ncbi.nlm.nih.gov/clinvar/variation/123> <http://www.w3.org/1999/02/22-rdf-syntax-ns#type> \"3.14\" .\n"
    ∧ obj_token cmX "3.14" ≠
      String.mk [dq] ++ "3.14" ++ String.mk [dq]
        ++ "^^<http://www.w3.org/2001/XMLSchema#double>"
    ∧ pyIsNumeric "3.14" = false := by
  exact ⟨rfl, by decide, by decide⟩

/-- C6 (amended): an all-digit object is emitted as an integer-typed
literal (for any namespace registry, since a digit string cannot be a
CURIE); but a decimal-point token such as `"3.14"` is *not* "fully numeric"
in the code's sense (`str.isnumeric`) and is emitted as a plain string
literal; the double branch fires only for strings of genuinely numeric
Unicode characters such as `"½"`. -/
theorem c6_theorem (cm : List (String × String)) (obj : String)
    (h : pyIsDigit obj = true) :
    obj_token cm obj =
      String.mk [dq] ++ obj ++ String.mk [dq]
        ++ "^^<http://www.w3.org/2001/XMLSchema#integer>"
    ∧ obj_token cm "3.14" = String.mk [dq] ++ "3.14" ++ String.mk [dq]
    ∧ obj_token cm (String.mk [Char.ofNat 0xBD]) =
      String.mk [dq] ++ String.mk [Char.ofNat 0xBD] ++ String.mk [dq]
        ++ "^^<http://www.w3.org/2001/XMLSchema#double>" := by
  refine ⟨?_, ?_, ?_⟩
  · have hdig : obj.data.all Char.isDigit = true := by
      have := h
      unfold pyIsDigit at this
      exact (Bool.and_eq_true _ _ |>.mp this).2
    have hnc : matchCURIERE obj.data = false :=
      matchCURIERE_no_colon obj.data (digits_no_colon obj.data hdig)
    unfold obj_token
    rw [hnc]
    simp only [Bool.false_eq_true, if_false]
    unfold obj_token_literal
    rw [if_pos h]
  · have hnc : matchCURIERE ("3.14" : String).data = false := by decide
    unfold obj_token
    rw [hnc]
    simp only [Bool.false_eq_true, if_false]
    rfl
  · have hnc : matchCURIERE (String.mk [Char.ofNat 0xBD]).data = false := by decide
    unfold obj_token
    rw [hnc]
    simp only [Bool.false_eq_true, if_false]
    rfl

/-- Witness for C6's amended integer clause at the all-digit token `"42"`. -/
theorem c6_witness :
    pyIsDigit "42" = true
    ∧ obj_token cmX "42" =
      String.mk [dq] ++ "42" ++ String.mk [dq]
        ++ "^^<http://www.w3.org/2001/XMLSchema#integer>" :=
  ⟨by decide, (c6_theorem cmX "42" (by decide)).1⟩

/-- C8: when a built Variant ends up with exactly one Allele child, the
allele's identifier has been overwritten with the variant's and the
variant's type copied from the allele; with zero or several alleles the
built variant is exactly the uncollapsed one (whose type is then the
set-level tag). -/
theorem c8_theorem (ms : MeasureSet) (acc : String) (v : Variant)
    (hok : process_measure_set ms acc = Except.ok v) :
    (∀ a, v.alleles = [a] → a.id = v.id ∧ v.variant_type = some a.variant_type)
    ∧ (v.alleles.length ≠ 1 →
        v = { id := "ClinVarVariant:" ++ ms.msid, label := none,
              variant_type := some ms.mstype,
              alleles := ms.measures.map build_allele }) := by
  have hcv : haplotypeTags.contains "Variant" = false := by decide
  have hmem : "Variant" ∉ haplotypeTags := by decide
  rcases hal : ms.measures.map build_allele with _ | ⟨a0, _ | ⟨b0, t0⟩⟩ <;>
    by_cases h1 : haplotypeTags.contains ms.mstype <;>
    by_cases h2 : ms.mstype = "Variant" <;>
    simp only [process_measure_set, h1, h2, hal, hcv, hmem, collapse_single,
      bind, pure, Except.bind, Except.pure, if_true, if_false,
      Bool.false_eq_true, reduceCtorEq, reduceIte] at hok <;>
    first
      | exact hok.elim
      | exact Except.noConfusion hok
      | (injection hok with hok
         subst hok
         refine ⟨fun a ha => ?_, fun hlen => ?_⟩
         · first
             | (simp only [List.cons.injEq, and_true] at ha
                subst ha
                exact ⟨rfl, rfl⟩)
             | simp at ha
         · first
             | exact absurd rfl hlen
             | rfl)

/-- Witness for C8 at a concrete single-measure `MeasureSet` of set-level
type `"Variant"`. -/
theorem c8_witness :
    ∃ v, process_measure_set msC8 "RCV000000057" = Except.ok v
      ∧ (∀ a, v.alleles = [a] → a.id = v.id ∧ v.variant_type = some a.variant_type) := by
  exact ⟨_, rfl, (c8_theorem msC8 "RCV000000057" _ rfl).1⟩

/-- The per-condition test of the `is_affected` loop, as an existential. -/
theorem cond_match_iff (g2p : List (String × List String)) (og : Option String)
    (c : Condition) :
    (match c.medgen_id, g2pLookup g2p og with
      | some m, some ids => ids.contains m
      | _, _ => false) = true ↔
    ∃ m ids, c.medgen_id = some m ∧ g2pLookup g2p og = some ids ∧ m ∈ ids := by
  rcases hm : c.medgen_id with _ | m <;>
    rcases hg : g2pLookup g2p og with _ | ids <;>
    simp [List.elem_iff]

/-- The whole condition loop of `is_affected`, as a bounded universal. -/
theorem condsOk_iff (g2p : List (String × List String)) (og : Option String)
    (conds : List Condition) :
    (conds.all (fun c =>
      match c.medgen_id, g2pLookup g2p og with
      | some m, some ids => ids.contains m
      | _, _ => false) = true) ↔
    ∀ c ∈ conds, ∃ m ids, c.medgen_id = some m
      ∧ g2pLookup g2p og = some ids ∧ m ∈ ids := by
  rw [List.all_eq_true]
  constructor
  · intro h c hc
    exact (cond_match_iff g2p og c).mp (h c hc)
  · intro h c hc
    exact (cond_match_iff g2p og c).mpr (h c hc)

/-- C1 (amended): in the uniform-relationship branch a gene is marked
genuinely affected iff the record's significance is the (likely-)pathogenic
call AND *every* Condition of the record carries a MedGen id present in
that gene's entry of the gene→condition map (the source loop breaks on the
first failing condition); the statement actually emitted for a pair is the
resolved-relationship statement when `is_affected` holds and the `part_of`
statement otherwise. -/
theorem c1_theorem (gtt : List (String × String))
    (g2p : List (String × List String)) (sig : String) (conds : List Condition)
    (og : Option String) (P LP : String)
    (h1 : ttLookup gtt "pathogenic_for_condition" = some P)
    (h2 : ttLookup gtt "likely_pathogenic_for_condition" = some LP) :
    (is_affected gtt g2p sig conds og = Except.ok true ↔
      ((sig = P ∨ sig = LP) ∧ ∀ c ∈ conds, ∃ m ids, c.medgen_id = some m
        ∧ g2pLookup g2p og = some ids ∧ m ∈ ids))
    ∧ (∀ (cm ltt : List (String × String)) (vid gid rel : String)
        (aff : Bool) (pLink : String),
        is_affected gtt g2p sig conds (some gid) = Except.ok aff →
        ttLookup gtt "part_of" = some pLink →
        attrib_one cm ltt gtt g2p sig conds vid (some gid, rel) =
          if aff then
            make_spo cm vid (resolve ltt gtt rel) ("NCBIGene:" ++ gid)
              (some (blvTerm "SequenceVariant")) (some (blvTerm "Gene"))
          else
            make_spo cm vid pLink ("NCBIGene:" ++ gid)
              (some (blvTerm "SequenceVariant")) (some (blvTerm "Gene"))) := by
  constructor
  · unfold is_affected
    rw [dix, dix, h1, h2]
    by_cases hp : sig = P
    · simp only [hp, if_true, bind, Except.bind, pure, Except.pure,
        Except.ok.injEq]
      exact ⟨fun h => ⟨Or.inl trivial, (condsOk_iff g2p og conds).mp h⟩,
             fun h => (condsOk_iff g2p og conds).mpr h.2⟩
    · by_cases hlp : sig = LP
      · simp only [hp, hlp, if_true, if_false, bind, Except.bind, pure,
          Except.pure, ite_self, Except.ok.injEq]
        exact ⟨fun h => ⟨Or.inr trivial, (condsOk_iff g2p og conds).mp h⟩,
               fun h => (condsOk_iff g2p og conds).mpr h.2⟩
      · simp only [bind, Except.bind, pure, Except.pure]
        simp [hp, hlp]
  · intro cm ltt vid gid rel aff pLink haff hpart
    unfold attrib_one
    rw [haff]
    simp only [bind, Except.bind, optStrConcat, pure, Except.pure]
    cases aff with
    | false =>
      simp only [if_false, Bool.false_eq_true]
      rw [dix, hpart]
    | true => simp

/-- Witness for C1's amended statement: on `rcvC1`'s data, gene 5216 is not
affected (its second condition has no MedGen id), so the pair emits the
`part_of` statement. -/
theorem c1_witness :
    attrib_one cmX lttX gttX g2pX "GENO:0000840" rcvC1.conditions
      "ClinVarVariant:999" (some "5216", "within single gene") =
      make_spo cmX "ClinVarVariant:999" "BFO:0000050" "NCBIGene:5216"
        (some (blvTerm "SequenceVariant")) (some (blvTerm "Gene")) := by
  have h := (c1_theorem gttX g2pX "GENO:0000840" rcvC1.conditions (some "5216")
    "GENO:0000840" "GENO:0000841" rfl rfl).2 cmX lttX "ClinVarVariant:999"
    "5216" "within single gene" false "BFO:0000050" rfl rfl
  simpa using h

/-- Inserting into the sorted list adds one element. -/
theorem insertByKey_length (p : String × String) (l : List (String × String)) :
    (insertByKey p l).length = l.length + 1 := by
  induction l with
  | nil => rfl
  | cons q t ih =>
    simp only [insertByKey]
    split
    · rfl
    · simp [ih]

/-- Membership after insertion. -/
theorem insertByKey_mem (p q : String × String) (l : List (String × String)) :
    q ∈ insertByKey p l ↔ q = p ∨ q ∈ l := by
  induction l with
  | nil => simp [insertByKey]
  | cons r t ih =>
    simp only [insertByKey]
    split
    · simp [List.mem_cons]
    · simp only [List.mem_cons, ih]
      tauto

/-- Sorting preserves length. -/
theorem sortByKey_length (l : List (String × String)) :
    (sortByKey l).length = l.length := by
  induction l with
  | nil => rfl
  | cons p t ih => simp [sortByKey, insertByKey_length, ih]

/-- Sorting preserves membership. -/
theorem sortByKey_mem (q : String × String) (l : List (String × String)) :
    q ∈ sortByKey l ↔ q ∈ l := by
  induction l with
  | nil => simp [sortByKey]
  | cons p t ih =>
    simp only [sortByKey, insertByKey_mem, ih, List.mem_cons]

/-- For any two of the five calls, the weight difference is in the `lnk`
table, so `pair_link` succeeds, and the resulting relation is a usable
`SEPIO` predicate. -/
theorem pair_link_ok (va vb : String) (ha : va ∈ sigKeys) (hb : vb ∈ sigKeys) :
    ∃ lk lid, pair_link va vb = Except.ok lk
      ∧ pySplitS ':' lk = ["SEPIO", lid] ∧ lk ≠ "a" := by
  simp only [sigKeys, sigTable, List.map, List.mem_cons, List.not_mem_nil,
    or_false] at ha hb
  rcases ha with rfl | rfl | rfl | rfl | rfl <;>
    rcases hb with rfl | rfl | rfl | rfl | rfl <;>
    exact ⟨_, _, rfl, rfl, by decide⟩

/-- The relation of a pair does not depend on its orientation. -/
theorem pair_link_comm (va vb : String) (ha : va ∈ sigKeys) (hb : vb ∈ sigKeys) :
    pair_link va vb = pair_link vb va := by
  simp only [sigKeys, sigTable, List.map, List.mem_cons, List.not_mem_nil,
    or_false] at ha hb
  rcases ha with rfl | rfl | rfl | rfl | rfl <;>
    rcases hb with rfl | rfl | rfl | rfl | rfl <;> rfl

/-- A token usable as a subject is in particular nonempty. -/
theorem curieOk_ne_empty (cm : List (String × String)) (s : String)
    (h : curieOkFor cm s) : s ≠ "" := by
  obtain ⟨x, y, u, hsp, -⟩ := h
  intro hEq
  subst hEq
  simp [pySplitS, pySplit] at hsp

/-- `make_spo` succeeds whenever the subject and (substituted) predicate
split at one colon with registered prefixes and the object is nonempty. -/
theorem make_spo_ok (cm : List (String × String)) (sub prd obj : String)
    (c1 c2 : Option String) (hs : curieOkFor cm sub)
    (hp : curieOkFor cm (if prd = "a" then "rdf:type" else prd))
    (ho : obj ≠ "") :
    ∃ s, make_spo cm sub prd obj c1 c2 = Except.ok s := by
  obtain ⟨sa, sb, su, hsplit, hlook⟩ := hs
  obtain ⟨pa, pb, pu, hpsplit, hplook⟩ := hp
  unfold make_spo
  simp only [hsplit, hpsplit, hlook, hplook, if_neg ho]
  exact ⟨_, rfl⟩

/-- One outer round of `scv_link` succeeds, appends exactly two statements
per remaining sibling, and covers both directions against each of them. -/
theorem linkOne_ok (cm : List (String × String)) (a va : String)
    (rest : List (String × String))
    (hsepio : ∃ u, ttLookup cm "SEPIO" = some u)
    (hka : curieOkFor cm a) (hva : va ∈ sigKeys)
    (hrest : ∀ p ∈ rest, curieOkFor cm p.1 ∧ p.2 ∈ sigKeys) :
    ∃ out, linkOne cm a va rest = Except.ok out
      ∧ out.length = 2 * rest.length
      ∧ ∀ p ∈ rest, ∀ lk, pair_link va p.2 = Except.ok lk →
          (∃ s, make_spo cm a lk p.1 none none = Except.ok s ∧ s ∈ out)
          ∧ (∃ s, make_spo cm p.1 lk a none none = Except.ok s ∧ s ∈ out) := by
  induction rest with
  | nil => exact ⟨[], rfl, rfl, by simp⟩
  | cons q t ih =>
    obtain ⟨b, vb⟩ := q
    have hq := hrest (b, vb) (by simp)
    have ht : ∀ p ∈ t, curieOkFor cm p.1 ∧ p.2 ∈ sigKeys :=
      fun p hp => hrest p (by simp [hp])
    obtain ⟨lk0, lid0, hlk0, hsplit0, hne0⟩ := pair_link_ok va vb hva hq.2
    obtain ⟨u, hu⟩ := hsepio
    have hpok : curieOkFor cm (if lk0 = "a" then "rdf:type" else lk0) := by
      rw [if_neg hne0]
      exact ⟨"SEPIO", lid0, u, hsplit0, hu⟩
    obtain ⟨s1, hs1⟩ := make_spo_ok cm a lk0 b none none hka hpok
      (curieOk_ne_empty cm b hq.1)
    obtain ⟨s2, hs2⟩ := make_spo_ok cm b lk0 a none none hq.1 hpok
      (curieOk_ne_empty cm a hka)
    obtain ⟨out, hout, hlen, hcov⟩ := ih ht
    refine ⟨s1 :: s2 :: out, ?_, ?_, ?_⟩
    · simp only [linkOne, hlk0, hs1, hs2, hout, bind, Except.bind, pure,
        Except.pure]
    · simp [hlen]
      omega
    · intro p hp lk hlk
      rcases List.mem_cons.mp hp with hph | hpt
      · subst hph
        rw [hlk0] at hlk
        injection hlk with hlk
        subst hlk
        exact ⟨⟨s1, hs1, by simp⟩, ⟨s2, hs2, by simp⟩⟩
      · obtain ⟨⟨sa2, hsa2, hma⟩, ⟨sb2, hsb2, hmb⟩⟩ := hcov p hpt lk hlk
        exact ⟨⟨sa2, hsa2, by simp [hma]⟩, ⟨sb2, hsb2, by simp [hmb]⟩⟩

/-- The full pop-and-compare loop of `scv_link` on a sibling list succeeds,
emits exactly `n * (n - 1)` directional statements, and contains both
directional statements for every pair of distinct siblings. -/
theorem scv_link_sorted_ok (cm : List (String × String))
    (l : List (String × String))
    (hsepio : ∃ u, ttLookup cm "SEPIO" = some u)
    (hl : ∀ p ∈ l, curieOkFor cm p.1 ∧ p.2 ∈ sigKeys) :
    ∃ out, scv_link_sorted cm l = Except.ok out
      ∧ out.length = l.length * (l.length - 1)
      ∧ ∀ a va b vb, (a, va) ∈ l → (b, vb) ∈ l → a ≠ b →
          ∀ lk, pair_link va vb = Except.ok lk →
            (∃ s, make_spo cm a lk b none none = Except.ok s ∧ s ∈ out)
            ∧ (∃ s, make_spo cm b lk a none none = Except.ok s ∧ s ∈ out) := by
  induction l with
  | nil => exact ⟨[], rfl, rfl, by simp⟩
  | cons q t ih =>
    obtain ⟨h, hv⟩ := q
    have hq := hl (h, hv) (by simp)
    have ht : ∀ p ∈ t, curieOkFor cm p.1 ∧ p.2 ∈ sigKeys :=
      fun p hp => hl p (by simp [hp])
    obtain ⟨out1, hout1, hlen1, hcov1⟩ :=
      linkOne_ok cm h hv t hsepio hq.1 hq.2 ht
    obtain ⟨out2, hout2, hlen2, hcov2⟩ := ih ht
    refine ⟨out1 ++ out2, ?_, ?_, ?_⟩
    · simp only [scv_link_sorted, hout1, hout2, bind, Except.bind, pure,
        Except.pure]
    · simp only [List.length_append, hlen1, hlen2, List.length_cons]
      cases t.length with
      | zero => rfl
      | succ n => simp [Nat.succ_sub_one]; ring
    · intro a va b vb hm1 hm2 hne lk hlk
      rcases List.mem_cons.mp hm1 with h1 | h1 <;>
        rcases List.mem_cons.mp hm2 with h2 | h2
      · exact absurd (by rw [Prod.mk.injEq] at h1 h2; rw [h1.1, h2.1]) hne
      · obtain ⟨hva, hvv⟩ := Prod.mk.injEq .. |>.mp h1
        subst hva
        subst hvv
        obtain ⟨⟨sa2, hsa2, hma⟩, ⟨sb2, hsb2, hmb⟩⟩ := hcov1 (b, vb) h2 lk hlk
        exact ⟨⟨sa2, hsa2, by simp [hma]⟩, ⟨sb2, hsb2, by simp [hmb]⟩⟩
      · obtain ⟨hvb, hvv⟩ := Prod.mk.injEq .. |>.mp h2
        subst hvb
        subst hvv
        have hcomm : pair_link vb va = Except.ok lk := by
          rw [pair_link_comm vb va hq.2 (ht (a, va) h1).2]
          exact hlk
        obtain ⟨⟨sa2, hsa2, hma⟩, ⟨sb2, hsb2, hmb⟩⟩ := hcov1 (a, va) h1 lk hcomm
        exact ⟨⟨sb2, hsb2, by simp [hmb]⟩, ⟨sa2, hsa2, by simp [hma]⟩⟩
      · obtain ⟨⟨sa2, hsa2, hma⟩, ⟨sb2, hsb2, hmb⟩⟩ :=
          hcov2 a va b vb h1 h2 hne lk hlk
        exact ⟨⟨sa2, hsa2, by simp [hma]⟩, ⟨sb2, hsb2, by simp [hmb]⟩⟩

/-- C3: for a sibling map with at least two distinct sibling identifiers
(usable as subjects) and qualifying pathogenicity calls, `scv_link`
succeeds and appends exactly `2 * C(n, 2)` directional statements, covering
every unordered pair of distinct siblings in both directions with the
relation given by the fixed difference table; in particular a
pathogenic/benign pair (weight difference 7) is linked by
strongly-contradicts. -/
theorem c3_theorem (cm : List (String × String)) (m : List (String × String))
    (_hn : 2 ≤ m.length) (_hnd : (m.map Prod.fst).Nodup)
    (hsepio : ∃ u, ttLookup cm "SEPIO" = some u)
    (hm : ∀ p ∈ m, curieOkFor cm p.1 ∧ p.2 ∈ sigKeys) :
    ∃ out, scv_link cm m = Except.ok out
      ∧ out.length = 2 * Nat.choose m.length 2
      ∧ (∀ a va b vb, (a, va) ∈ m → (b, vb) ∈ m → a ≠ b →
          ∀ lk, pair_link va vb = Except.ok lk →
            (∃ s, make_spo cm a lk b none none = Except.ok s ∧ s ∈ out)
            ∧ (∃ s, make_spo cm b lk a none none = Except.ok s ∧ s ∈ out))
      ∧ pair_link "GENO:0000840" "GENO:0000843" = Except.ok "SEPIO:0000100" := by
  obtain ⟨out, hout, hlen, hcov⟩ := scv_link_sorted_ok cm (sortByKey m) hsepio
    (fun p hp => hm p ((sortByKey_mem p m).mp hp))
  refine ⟨out, hout, ?_, ?_, rfl⟩
  · rw [hlen, sortByKey_length, Nat.choose_two_right]
    have heven : 2 ∣ m.length * (m.length - 1) := by
      rcases Nat.even_or_odd m.length with he | ho
      · exact Dvd.dvd.mul_right he.two_dvd _
      · cases hml : m.length with
        | zero => simp
        | succ n =>
          rw [hml] at ho
          have : Even n := Nat.Odd.sub_odd ho odd_one
          simpa [Nat.succ_sub_one, Nat.mul_comm] using
            Dvd.dvd.mul_left this.two_dvd (n + 1)
    omega
  · intro a va b vb h1 h2 hne lk hlk
    exact hcov a va b vb ((sortByKey_mem (a, va) m).mpr h1)
      ((sortByKey_mem (b, vb) m).mpr h2) hne lk hlk

/-- Witness for C3 at a concrete two-sibling map (pathogenic vs benign). -/
theorem c3_witness :
    ∃ out, scv_link cmX
        [("MONARCH:aaa", "GENO:0000840"), ("MONARCH:bbb", "GENO:0000843")] =
        Except.ok out
      ∧ out.length = 2 * Nat.choose 2 2 := by
  obtain ⟨out, h1, h2, -, -⟩ := c3_theorem cmX
    [("MONARCH:aaa", "GENO:0000840"), ("MONARCH:bbb", "GENO:0000843")]
    (by decide) (by decide) ⟨"http://purl.obolibrary.org/obo/SEPIO_", rfl⟩
    (by
      intro p hp
      rcases List.mem_cons.mp hp with rfl | hp2
      · exact ⟨⟨"MONARCH", "aaa", "https://monarchinitiative.org/MONARCH_",
          rfl, rfl⟩, by decide⟩
      · rcases List.mem_cons.mp hp2 with rfl | hp3
        · exact ⟨⟨"MONARCH", "bbb", "https://monarchinitiative.org/MONARCH_",
            rfl, rfl⟩, by decide⟩
        · cases hp3)
  exact ⟨out, h1, h2⟩
